import Mathlib

/-!
Verification of the Stewart-platform GUI controller
(`src/GUI/stewart_platform.cpp`), shallowly embedded in Lean 4.

The controller's observable state (actuator positions, serial-port
configuration and open/closed status, the two status labels, the send
button, the actuator group box, the Leap-enable flag, the event log and
the bytes written to the serial port) is a `PlatformState`; each Qt slot
of the C++ class becomes a pure transition function on that state.
Environment-controlled outcomes (whether `QSerialPort::open` succeeds,
the `errorString` it reports) are passed in as parameters; the
`Q_ASSERT` in the write path makes `writeSerialData` return `Option`,
with `none` standing for an assertion violation.
-/

/-- `NUM_ACTUATORS` from the header: the platform has six actuators. -/
def NUM_ACTUATORS : Nat := 6

/-- The `SerialSettingsDialog::Settings` snapshot read in
`openSerialPort`: the six configuration fields applied to the port and
the human-readable string forms used in the log line.  The enumerated
fields (`dataBits`, `parity`, `stopBits`, `flowControl`) are opaque
codes here. -/
structure Settings where
  name : String
  baudRate : Int
  dataBits : Nat
  parity : Nat
  stopBits : Nat
  flowControl : Nat
  stringBaudRate : String
  stringDataBits : String
  stringParity : String
  stringStopBits : String
  stringFlowControl : String
  deriving Repr, DecidableEq

/-- The observable state of the `StewartPlatform` window together with
its `QSerialPort`.  `written` is the trace of strings passed to
`QSerialPort::write`; `logEntries` is the sequence of entries passed to
`log` (their wall-clock timestamps are outside the model). -/
structure PlatformState where
  actuator_positions : List Int
  portName : String
  baudRate : Int
  dataBits : Nat
  parity : Nat
  stopBits : Nat
  flowControl : Nat
  isOpen : Bool
  label_serial_val : String
  label_leap_val : String
  button_send_enabled : Bool
  actuatorBox_enabled : Bool
  is_leap_enabled : Bool
  logEntries : List String
  written : List String
  deriving Repr, DecidableEq

/-- The string built by `StewartPlatform::sendActuatorPositions`: for
each `i < NUM_ACTUATORS`, `QString::number(actuator_pos[i])` followed by
a space if `i` is not the last index, else a newline. -/
def encodeActuatorPositions (actuator_pos : List Int) : String :=
  (List.range NUM_ACTUATORS).foldl
    (fun s i =>
      s ++ toString (actuator_pos.getD i 0) ++
        (if i < NUM_ACTUATORS - 1 then " " else "\n"))
    ""

/-- `StewartPlatform::writeSerialData`: `Q_ASSERT(m_serial->isOpen())`,
then `m_serial->write(data)`.  The assertion violation is `none`; a
successful write appends the data to the wire trace and returns at once
(no completion acknowledgment is awaited or recorded). -/
def writeSerialData (s : PlatformState) (data : String) :
    Option PlatformState :=
  if s.isOpen then some { s with written := s.written ++ [data] }
  else none

/-- `StewartPlatform::sendActuatorPositions`: encode the given vector
and hand the line to `writeSerialData`. -/
def sendActuatorPositions (s : PlatformState) (actuator_pos : List Int) :
    Option PlatformState :=
  writeSerialData s (encodeActuatorPositions actuator_pos)

/-- `StewartPlatform::closeSerialPort`: if the port is open, close it,
log the disconnect with the port name, reset the serial status label to
"Disconnected" and disable the send button; otherwise do nothing. -/
def closeSerialPort (s : PlatformState) : PlatformState :=
  if s.isOpen then
    { s with
      isOpen := false
      logEntries := s.logEntries ++
        ["<COM>  Disconnected from " ++ s.portName]
      label_serial_val := "Disconnected"
      button_send_enabled := false }
  else s

/-- `StewartPlatform::openSerialPort`: close any existing handle, apply
the six settings fields, then attempt the open.  `ok` is whether
`m_serial->open(QIODevice::ReadWrite)` succeeds and `err` is
`m_serial->errorString()`, both decided by the environment. -/
def openSerialPort (s : PlatformState) (p : Settings) (err : String)
    (ok : Bool) : PlatformState :=
  let s1 := closeSerialPort s
  let s2 := { s1 with
    portName := p.name
    baudRate := p.baudRate
    dataBits := p.dataBits
    parity := p.parity
    stopBits := p.stopBits
    flowControl := p.flowControl }
  if ok then
    { s2 with
      isOpen := true
      label_serial_val := p.name
      button_send_enabled := true
      logEntries := s2.logEntries ++
        ["<COM>  Connected to " ++ p.name ++ " : " ++ p.stringBaudRate ++
          ", " ++ p.stringDataBits ++ ", " ++ p.stringParity ++ ", " ++
          p.stringStopBits ++ ", " ++ p.stringFlowControl] }
  else
    { s2 with
      logEntries := s2.logEntries ++ ["<COM>  Connection error: " ++ err] }

/-- `StewartPlatform::enableLeapMotion`: enable the actuator group box
iff Leap is being disabled, and store the flag on the Leap listener. -/
def enableLeapMotion (s : PlatformState) (c : Bool) : PlatformState :=
  { s with actuatorBox_enabled := !c, is_leap_enabled := c }

/-- `StewartPlatform::onLeapConnected`: update the Leap status label and
log the connect/disconnect event. -/
def onLeapConnected (s : PlatformState) (connected : Bool) :
    PlatformState :=
  if connected then
    { s with
      label_leap_val := "Connected"
      logEntries := s.logEntries ++ ["<LEAP> Connected"] }
  else
    { s with
      label_leap_val := "Disconnected"
      logEntries := s.logEntries ++ ["<LEAP> Disconnected"] }

/-- The send-button click handler wired in the constructor:
`sendActuatorPositions(this->actuator_positions)`. -/
def manualSend (s : PlatformState) : Option PlatformState :=
  sendActuatorPositions s s.actuator_positions

/-- Modelled from the spec: the `LeapEventListener` source is not under
`src/` (only `stewart_platform.cpp` is).  Per the spec the device is
"gated by an enable flag": a frame-update is forwarded only while
`is_leap_enabled` is set, and the constructor wires `LeapFrameUpdate`
directly to `sendActuatorPositions`.  Delivery of one frame-update
event carrying the 6-tuple `v` therefore runs the handler when the flag
is set and does nothing otherwise. -/
def leapFrameEvent (s : PlatformState) (v : List Int) :
    Option PlatformState :=
  if s.is_leap_enabled then sendActuatorPositions s v else some s

/-- The state established by the `StewartPlatform` constructor:
`actuator_positions = {0,0,0,0,0,0}`, both status labels set to
"Disconnected", the send button disabled; the serial port starts closed
with default (empty) configuration, nothing logged or written, the
actuator group box at its enabled default, and the Leap flag clear (the
enable checkbox starts unchecked). -/
def initState : PlatformState :=
  { actuator_positions := [0, 0, 0, 0, 0, 0]
    portName := ""
    baudRate := 0
    dataBits := 0
    parity := 0
    stopBits := 0
    flowControl := 0
    isOpen := false
    label_serial_val := "Disconnected"
    label_leap_val := "Disconnected"
    button_send_enabled := false
    actuatorBox_enabled := true
    is_leap_enabled := false
    logEntries := []
    written := [] }

/-- States reachable from the constructor through the handlers the
window wires up (settings-dialog open, error-driven close, Leap-enable
toggle, Leap connect/disconnect). -/
inductive Reachable : PlatformState → Prop
  | init : Reachable initState
  | openPort {s} (p : Settings) (err : String) (ok : Bool) :
      Reachable s → Reachable (openSerialPort s p err ok)
  | closePort {s} : Reachable s → Reachable (closeSerialPort s)
  | enableLeap {s} (c : Bool) :
      Reachable s → Reachable (enableLeapMotion s c)
  | leapConn {s} (b : Bool) :
      Reachable s → Reachable (onLeapConnected s b)

/-- The slot wired to `QSerialPort::errorOccurred` in the constructor
(line 58): disconnecting the port is the whole error handling. -/
def errorOccurredHandler : PlatformState → PlatformState :=
  closeSerialPort

/-- A concrete settings snapshot used to instantiate theorems. -/
def testSettings : Settings :=
  { name := "COM3"
    baudRate := 9600
    dataBits := 8
    parity := 0
    stopBits := 1
    flowControl := 0
    stringBaudRate := "9600"
    stringDataBits := "8"
    stringParity := "None"
    stringStopBits := "1"
    stringFlowControl := "None" }

/-- A concrete connected state: a successful open from the initial
state. -/
def sOpen : PlatformState :=
  openSerialPort initState testSettings "" true

/-- A concrete connected state with Leap forwarding enabled. -/
def sLeapOpen : PlatformState :=
  enableLeapMotion sOpen true

/-- C1: encoding a 6-tuple yields the six decimal values separated by
single spaces, with no trailing space after the sixth, terminated by
exactly one newline; in particular `encode([1,2,3,4,5,6])` is
`"1 2 3 4 5 6\n"`. -/
theorem encode_six_tuple (a b c d e f : Int) :
    encodeActuatorPositions [a, b, c, d, e, f] =
      toString a ++ " " ++ toString b ++ " " ++ toString c ++ " " ++
        toString d ++ " " ++ toString e ++ " " ++ toString f ++ "\n" ∧
    encodeActuatorPositions [1, 2, 3, 4, 5, 6] = "1 2 3 4 5 6\n" := by
  constructor
  · simp [encodeActuatorPositions, NUM_ACTUATORS, List.range_succ,
      String.append_assoc]
  · rfl

/-- C2: `openSerialPort` closes any existing connection first (so
re-opening behaves exactly like opening from the closed state, and the
pre-open close is idempotent), applies all six settings fields, and on
a successful underlying open the port is open, the serial status label
shows the port name, the send button is enabled, and one log line
records the full configuration. -/
theorem openSerialPort_success (s : PlatformState) (p : Settings)
    (err : String) :
    (closeSerialPort s).isOpen = false ∧
    closeSerialPort (closeSerialPort s) = closeSerialPort s ∧
    openSerialPort s p err true =
      openSerialPort (closeSerialPort s) p err true ∧
    (openSerialPort s p err true).portName = p.name ∧
    (openSerialPort s p err true).baudRate = p.baudRate ∧
    (openSerialPort s p err true).dataBits = p.dataBits ∧
    (openSerialPort s p err true).parity = p.parity ∧
    (openSerialPort s p err true).stopBits = p.stopBits ∧
    (openSerialPort s p err true).flowControl = p.flowControl ∧
    (openSerialPort s p err true).isOpen = true ∧
    (openSerialPort s p err true).label_serial_val = p.name ∧
    (openSerialPort s p err true).button_send_enabled = true ∧
    (openSerialPort s p err true).logEntries =
      (closeSerialPort s).logEntries ++
        ["<COM>  Connected to " ++ p.name ++ " : " ++ p.stringBaudRate ++
          ", " ++ p.stringDataBits ++ ", " ++ p.stringParity ++ ", " ++
          p.stringStopBits ++ ", " ++ p.stringFlowControl] := by
  cases h : s.isOpen <;>
    simp [openSerialPort, closeSerialPort, h]

/-- C3: when the underlying open fails, the port ends up closed, the
send button stays disabled (given the invariant that the button is only
enabled while the port is open), and a log line records the underlying
error description. -/
theorem openSerialPort_failure (s : PlatformState) (p : Settings)
    (err : String)
    (h : s.button_send_enabled = true → s.isOpen = true) :
    (openSerialPort s p err false).isOpen = false ∧
    (openSerialPort s p err false).button_send_enabled = false ∧
    (openSerialPort s p err false).logEntries =
      (closeSerialPort s).logEntries ++
        ["<COM>  Connection error: " ++ err] := by
  cases h' : s.isOpen
  · have hb : s.button_send_enabled = false := by
      cases hb : s.button_send_enabled
      · rfl
      · exact absurd (h hb) (by simp [h'])
    simp [openSerialPort, closeSerialPort, h', hb]
  · simp [openSerialPort, closeSerialPort, h']

/-- Witness for C3 at the initial state and a concrete error. -/
theorem openSerialPort_failure_witness :
    (openSerialPort initState testSettings "Device not found" false).isOpen
        = false ∧
    (openSerialPort initState testSettings "Device not found"
        false).button_send_enabled = false ∧
    (openSerialPort initState testSettings "Device not found"
        false).logEntries =
      (closeSerialPort initState).logEntries ++
        ["<COM>  Connection error: " ++ "Device not found"] :=
  openSerialPort_failure initState testSettings "Device not found"
    (by decide)

/-- C4: a transport error event runs exactly `closeSerialPort` (no
retry, no backoff): while the port is open it closes it and disables
the send button, and repeated firings leave the state unchanged. -/
theorem serial_error_closes (s : PlatformState) :
    errorOccurredHandler s = closeSerialPort s ∧
    (s.isOpen = true →
      (errorOccurredHandler s).isOpen = false ∧
      (errorOccurredHandler s).button_send_enabled = false) ∧
    errorOccurredHandler (errorOccurredHandler s) =
      errorOccurredHandler s := by
  refine ⟨rfl, ?_, ?_⟩
  · intro h
    simp [errorOccurredHandler, closeSerialPort, h]
  · cases h : s.isOpen <;>
      simp [errorOccurredHandler, closeSerialPort, h]

/-- Witness for C4 at a concrete connected state. -/
theorem serial_error_closes_witness :
    (errorOccurredHandler sOpen).isOpen = false ∧
    (errorOccurredHandler sOpen).button_send_enabled = false ∧
    errorOccurredHandler (errorOccurredHandler sOpen) =
      errorOccurredHandler sOpen :=
  ⟨((serial_error_closes sOpen).2.1 (by decide)).1,
   ((serial_error_closes sOpen).2.1 (by decide)).2,
   (serial_error_closes sOpen).2.2⟩

/-- C5: `closeSerialPort` is a no-op (no state change, hence no log
entry) when the port is already closed; otherwise it closes the handle,
logs the disconnect with the port name, resets the serial status label
to "Disconnected" and disables the send button. -/
theorem closeSerialPort_spec (s : PlatformState) :
    (s.isOpen = false → closeSerialPort s = s) ∧
    (s.isOpen = true →
      (closeSerialPort s).isOpen = false ∧
      (closeSerialPort s).logEntries =
        s.logEntries ++ ["<COM>  Disconnected from " ++ s.portName] ∧
      (closeSerialPort s).label_serial_val = "Disconnected" ∧
      (closeSerialPort s).button_send_enabled = false) := by
  constructor
  · intro h; simp [closeSerialPort, h]
  · intro h; simp [closeSerialPort, h]

/-- Witness for C5: no-op at the initial (closed) state; full teardown
at a concrete connected state. -/
theorem closeSerialPort_spec_witness :
    closeSerialPort initState = initState ∧
    (closeSerialPort sOpen).isOpen = false ∧
    (closeSerialPort sOpen).logEntries =
      sOpen.logEntries ++ ["<COM>  Disconnected from " ++ sOpen.portName] ∧
    (closeSerialPort sOpen).label_serial_val = "Disconnected" ∧
    (closeSerialPort sOpen).button_send_enabled = false :=
  ⟨(closeSerialPort_spec initState).1 (by decide),
   (closeSerialPort_spec sOpen).2 (by decide)⟩

/-- C6: `writeSerialData` requires the port to be open; under that
precondition the assertion holds and the write is one fire-and-forget
call that only appends the data to the wire trace (no acknowledgment is
awaited), while writing with the port closed is an assertion
violation. -/
theorem writeSerialData_spec (s : PlatformState) (data : String) :
    (s.isOpen = true →
      writeSerialData s data =
        some { s with written := s.written ++ [data] }) ∧
    (s.isOpen = false → writeSerialData s data = none) := by
  constructor
  · intro h; simp [writeSerialData, h]
  · intro h; simp [writeSerialData, h]

/-- Witness for C6 at a concrete connected state and at the initial
(closed) state. -/
theorem writeSerialData_spec_witness :
    writeSerialData sOpen "1 2 3 4 5 6\n" =
      some { sOpen with written := sOpen.written ++ ["1 2 3 4 5 6\n"] } ∧
    writeSerialData initState "1 2 3 4 5 6\n" = none :=
  ⟨(writeSerialData_spec sOpen "1 2 3 4 5 6\n").1 (by decide),
   (writeSerialData_spec initState "1 2 3 4 5 6\n").2 (by decide)⟩

/-- C7: while the port is open, delivering a Leap frame-update carrying
`v` writes the encoded line to the serial port precisely when the Leap
flag is set, and in every case it leaves the actuator vector
unchanged (Leap frames bypass the cached actuator state). -/
theorem leapFrameEvent_spec (s : PlatformState) (v : List Int)
    (h : s.isOpen = true) :
    (∀ t, leapFrameEvent s v = some t →
      t.actuator_positions = s.actuator_positions) ∧
    ∃ t, leapFrameEvent s v = some t ∧
      t.written = (if s.is_leap_enabled then
        s.written ++ [encodeActuatorPositions v] else s.written) ∧
      t.actuator_positions = s.actuator_positions := by
  cases hl : s.is_leap_enabled <;>
    simp [leapFrameEvent, sendActuatorPositions, writeSerialData, h, hl]

/-- Witness for C7 at a concrete connected, Leap-enabled state. -/
theorem leapFrameEvent_spec_witness :
    (∀ t, leapFrameEvent sLeapOpen [1, 2, 3, 4, 5, 6] = some t →
      t.actuator_positions = sLeapOpen.actuator_positions) ∧
    ∃ t, leapFrameEvent sLeapOpen [1, 2, 3, 4, 5, 6] = some t ∧
      t.written = (if sLeapOpen.is_leap_enabled then
        sLeapOpen.written ++
          [encodeActuatorPositions [1, 2, 3, 4, 5, 6]]
        else sLeapOpen.written) ∧
      t.actuator_positions = sLeapOpen.actuator_positions :=
  leapFrameEvent_spec sLeapOpen [1, 2, 3, 4, 5, 6] (by decide)

/-- C8: enabling Leap disables the actuator group box and sets the
device flag; disabling re-enables the box and clears the flag; starting
from a state with the box enabled and the flag clear, toggling on and
back off restores the original state exactly. -/
theorem enableLeapMotion_toggle (s : PlatformState)
    (h1 : s.actuatorBox_enabled = true)
    (h2 : s.is_leap_enabled = false) :
    (enableLeapMotion s true).actuatorBox_enabled = false ∧
    (enableLeapMotion s true).is_leap_enabled = true ∧
    (enableLeapMotion (enableLeapMotion s true) false).actuatorBox_enabled
        = true ∧
    (enableLeapMotion (enableLeapMotion s true) false).is_leap_enabled
        = false ∧
    enableLeapMotion (enableLeapMotion s true) false = s := by
  refine ⟨rfl, rfl, rfl, rfl, ?_⟩
  cases s
  simp_all [enableLeapMotion]

/-- Witness for C8 at the initial state. -/
theorem enableLeapMotion_toggle_witness :
    (enableLeapMotion initState true).actuatorBox_enabled = false ∧
    (enableLeapMotion initState true).is_leap_enabled = true ∧
    (enableLeapMotion (enableLeapMotion initState true)
        false).actuatorBox_enabled = true ∧
    (enableLeapMotion (enableLeapMotion initState true)
        false).is_leap_enabled = false ∧
    enableLeapMotion (enableLeapMotion initState true) false = initState :=
  enableLeapMotion_toggle initState (by decide) (by decide)

/-- C9: the Leap forwarding path performs no connection check: the
state reached from the constructor by ticking the Leap checkbox is
Leap-enabled yet disconnected, and delivering any frame-update there
goes straight to the serial write, whose is-open assertion fails. -/
theorem leap_forwarding_unchecked :
    Reachable (enableLeapMotion initState true) ∧
    (enableLeapMotion initState true).is_leap_enabled = true ∧
    (enableLeapMotion initState true).isOpen = false ∧
    ∀ v : List Int,
      leapFrameEvent (enableLeapMotion initState true) v =
        writeSerialData (enableLeapMotion initState true)
          (encodeActuatorPositions v) ∧
      leapFrameEvent (enableLeapMotion initState true) v = none := by
  refine ⟨Reachable.enableLeap true Reachable.init, rfl, rfl, ?_⟩
  intro v
  constructor <;>
    simp [leapFrameEvent, sendActuatorPositions, writeSerialData,
      enableLeapMotion, initState]

/-- C10: right after construction the actuator vector is all zeros, the
send button is disabled and both status labels show "Disconnected"; a
first manual send straight after any successful open transmits exactly
the line "0 0 0 0 0 0\n". -/
theorem initial_state_spec :
    initState.actuator_positions = [0, 0, 0, 0, 0, 0] ∧
    initState.button_send_enabled = false ∧
    initState.label_serial_val = "Disconnected" ∧
    initState.label_leap_val = "Disconnected" ∧
    ∀ (p : Settings) (err : String),
      ∃ t, manualSend (openSerialPort initState p err true) = some t ∧
        t.written = ["0 0 0 0 0 0\n"] := by
  refine ⟨rfl, rfl, rfl, rfl, ?_⟩
  intro p err
  refine ⟨_, rfl, ?_⟩
  simp [manualSend, sendActuatorPositions, writeSerialData,
    openSerialPort, closeSerialPort, initState]
  rfl
